import Mathlib

/-!
Verification of the Xeen sound driver (`engines/xeen/sound_driver.h`).

The repository provides the class header; the companion `.cpp` with the
method bodies is not part of the sources. Definitions below therefore come
in two kinds:
* structures and inline members that appear literally in the header
  (`Channel`, `Subroutine`, `RegisterValue`, the `MusicCommand` enum,
  `isPlaying`) are embedded directly from the source;
* method bodies that live in the missing implementation file are modelled
  from the specification document, and each such definition carries a doc
  comment starting with `Modelled from the spec:`.

Pointers into the song byte blob are modelled as indices into a `List Nat`
of bytes; machine bytes are natural numbers below 256, and C++ integral
conversions are made explicit with `% 256` (or `Int.emod` for signed
sources).
-/

namespace Xeen

/-- A machine byte, kept as a natural number; producers reduce mod 256. -/
abbrev Byte := Nat

/-- Subroutine stack frame, from the header: a return pointer and the jump
target of the call. Pointers are indices into the current song blob. -/
structure Subroutine where
  returnP : Nat
  jumpP : Nat
  deriving Repr, DecidableEq

/-- Per-voice channel state, from the `Channel` struct in the header.
`_freqCtrChange`, `_freqChange`, `_freqCtr` are C++ `int`, hence `Int`;
`_volume` and `_scalingValue` are bytes; `_frequency` is `uint`. -/
structure Channel where
  changeFrequency : Bool
  freqCtrChange : Int
  freqChange : Int
  freqCtr : Int
  volume : Byte
  scalingValue : Byte
  frequency : Nat
  deriving Repr, DecidableEq

/-- Default channel value, from the `Channel()` constructor in the header:
everything zeroed, `_changeFrequency` false. -/
def Channel.init : Channel :=
  { changeFrequency := false, freqCtrChange := 0, freqChange := 0,
    freqCtr := 0, volume := 0, scalingValue := 0, frequency := 0 }

/-- Number of OPL voices, `CHANNEL_COUNT` in the header. -/
def CHANNEL_COUNT : Nat := 9

/-- The `MusicCommand` enumeration from the header. -/
inductive MusicCommand where
  | STOP_SONG
  | RESTART_SONG
  | SET_VOLUME
  | GET_STATUS
  deriving Repr, DecidableEq

/-- Numeric value of each `MusicCommand` enumerator, as assigned in the
header: `STOP_SONG = 0, RESTART_SONG = 1, SET_VOLUME = 0x100,
GET_STATUS = 0xFFE0`. -/
def MusicCommand.value : MusicCommand → Nat
  | .STOP_SONG => 0
  | .RESTART_SONG => 1
  | .SET_VOLUME => 0x100
  | .GET_STATUS => 0xFFE0

/-- A queued OPL register write, from the `RegisterValue` struct of
`AdlibSoundDriver`: two `uint8` fields. -/
structure RegisterValue where
  regNum : Byte
  value : Byte
  deriving Repr, DecidableEq

/-- The `RegisterValue(int regNum, int value)` constructor from the header:
assigning an `int` to a `uint8` field truncates modulo 256 (C++ conversion
to an unsigned type). `Int.emod` yields the representative in `[0, 256)`. -/
def RegisterValue.make (regNum value : Int) : RegisterValue :=
  { regNum := (regNum % 256).toNat, value := (value % 256).toNat }

/-- Modelled from the spec: the mutable state of `AdlibSoundDriver` (header
fields of `SoundDriver` plus the Adlib subclass). Pointers into the song and
FX blobs are indices; the blobs themselves are carried in the state so that
dereferencing is total. The OPL sink and the mutex are outside the model:
register writes accumulate in `queue` until `flush`. -/
structure DriverState where
  channels : List Channel
  musSubroutines : List Subroutine
  fxSubroutines : List Subroutine
  musCountdownTimer : Nat
  fxCountdownTimer : Nat
  musData : List Byte
  musDataPtr : Nat
  musStartPtr : Nat
  fxData : List Byte
  fxDataPtr : Nat
  fxStartPtr : Nat
  frameCtr : Nat
  exclude7 : Bool
  musicPlaying : Bool
  fxPlaying : Bool
  queue : List RegisterValue
  musInstrumentPtrs : List (Option Byte)
  fxInstrumentPtrs : List (Option Byte)
  field180 : Int
  field181 : Int
  field182 : Int
  musicVolume : Byte
  sfxVolume : Byte
  deriving Repr, DecidableEq

/-- Modelled from the spec: state after construction and `initialize` — all
channels default-constructed, stacks and queue empty, nothing playing, both
instrument tables unassigned. -/
def initState : DriverState :=
  { channels := List.replicate CHANNEL_COUNT Channel.init,
    musSubroutines := [], fxSubroutines := [],
    musCountdownTimer := 0, fxCountdownTimer := 0,
    musData := [], musDataPtr := 0, musStartPtr := 0,
    fxData := [], fxDataPtr := 0, fxStartPtr := 0,
    frameCtr := 0, exclude7 := false,
    musicPlaying := false, fxPlaying := false,
    queue := [],
    musInstrumentPtrs := List.replicate 16 none,
    fxInstrumentPtrs := List.replicate 16 none,
    field180 := 0, field181 := 0, field182 := 0,
    musicVolume := 0, sfxVolume := 0 }

/-- Projection of the driver state onto the music stream: blob, instruction
pointer, start pointer, subroutine stack, countdown timer and playing flag.
The temporal claims about the music stream are stated over this view. -/
structure MusicStream where
  data : List Byte
  dataPtr : Nat
  startPtr : Nat
  subroutines : List Subroutine
  countdownTimer : Nat
  playing : Bool
  deriving Repr, DecidableEq

/-- View a driver state as its music stream portion. -/
def DriverState.musStream (s : DriverState) : MusicStream :=
  { data := s.musData, dataPtr := s.musDataPtr, startPtr := s.musStartPtr,
    subroutines := s.musSubroutines, countdownTimer := s.musCountdownTimer,
    playing := s.musicPlaying }

/-- The `write(int reg, int val)` member of `AdlibSoundDriver`: append the
truncated pair to the pending register-write queue (modelled from the spec;
the queue drains at the next timer tick). -/
def DriverState.write (s : DriverState) (reg val : Int) : DriverState :=
  { s with queue := s.queue ++ [RegisterValue.make reg val] }

/-- Two's-complement reading of a little-endian 16-bit operand pair. -/
def signed16 (lo hi : Byte) : Int :=
  let v := lo % 256 + 256 * (hi % 256)
  if v < 32768 then (v : Int) else (v : Int) - 65536

/-- Apply `f` to channel `i`; indices outside the table are ignored. -/
def updateChannel (i : Nat) (f : Channel → Channel) (s : DriverState) : DriverState :=
  match s.channels[i]? with
  | some c => { s with channels := s.channels.set i (f c) }
  | none => s

/-- Modelled from the spec: fetch one byte of the music stream and advance
the instruction pointer; `none` when the pointer has run off the blob
(missing operand bytes of a malformed stream). -/
def musReadByte (s : DriverState) : Option (Byte × DriverState) :=
  (s.musData[s.musDataPtr]?).map
    fun b => (b % 256, { s with musDataPtr := s.musDataPtr + 1 })

/-- Fetch `n` consecutive bytes of the music stream. -/
def musReadBytes : Nat → DriverState → Option (List Byte × DriverState)
  | 0, s => some ([], s)
  | n + 1, s =>
    match musReadByte s with
    | none => none
    | some (b, s1) =>
      match musReadBytes n s1 with
      | none => none
      | some (bs, s2) => some (b :: bs, s2)

/-- Enqueue a flat list of bytes as (register, value) pairs. -/
def enqueuePairs : List Byte → DriverState → DriverState
  | r :: v :: rest, s => enqueuePairs rest (s.write r v)
  | _, s => s

/-- Modelled from the spec: `OPERATOR1_INDEXES` — the fixed mapping from
logical channel to the OPL slot of its first operator. The concrete values
live in the missing implementation file; the canonical OPL2 modulator slots
are used, and no theorem depends on the individual entries. -/
def OPERATOR1_INDEXES : List Nat := [0, 1, 2, 8, 9, 10, 16, 17, 18]

/-- Modelled from the spec: `OPERATOR2_INDEXES` — OPL slot of each
channel's second (carrier) operator; see `OPERATOR1_INDEXES`. -/
def OPERATOR2_INDEXES : List Nat := [3, 4, 5, 11, 12, 13, 19, 20, 21]

/-- Modelled from the spec: the 12-entry table of equal-tempered base
F-numbers within one octave. The concrete values live in the missing
implementation file; the standard AdLib series is used, and the theorems
depend only on every entry being a 10-bit value. -/
def FNUMBER_TABLE : List Nat :=
  [343, 363, 385, 408, 432, 458, 485, 514, 544, 577, 611, 647]

/-- Modelled from the spec: `calcFrequency` — look up the base F-number for
the note's pitch class (low nibble) and combine it with the block bits from
the high nibble into the OPL frequency word. -/
def calcFrequency (note : Byte) : Nat :=
  (FNUMBER_TABLE[note % 16]?).getD 0 + note / 16 % 8 * 1024

/-- Modelled from the spec: combine base volume, scaling value and master
volume by multiplicative scaling into a 6-bit OPL attenuation, inverted
(0 = loudest). -/
def calcOutputLevel (volume scaling master : Nat) : Nat :=
  63 - min 63 (volume * scaling * master * 63 / (127 * 127 * 255))

/-- Modelled from the spec: `setOutputLevel` — enqueue the attenuation
register write for the channel's carrier operator slot. -/
def setOutputLevel (channelNum level : Nat) (s : DriverState) : DriverState :=
  s.write (0x40 + (OPERATOR2_INDEXES[channelNum]?).getD 0) level

/-- Modelled from the spec: `setFrequency` — enqueue the two OPL frequency
registers (F-number low byte, then block and F-number high bits) for a
channel. -/
def setFrequency (channelNum frequency : Nat) (s : DriverState) : DriverState :=
  (s.write (0xA0 + channelNum) (frequency % 256)).write (0xB0 + channelNum) (frequency / 256)

/-- Modelled from the spec: opcode 0 `musCallSubroutine` — read a
little-endian 16-bit displacement, push a frame holding the return pointer
(after the operands) and the jump target (the displacement is relative to
the byte following the call opcode), and continue at the target. A stack
already 16 frames deep or a negative target is a malformed stream. -/
def musCallSubroutine (param : Byte) (s : DriverState) : Option (Bool × DriverState) :=
  match musReadByte s with
  | none => none
  | some (lo, s1) =>
    match musReadByte s1 with
    | none => none
    | some (hi, s2) =>
      let target : Int := (s.musDataPtr : Int) + signed16 lo hi
      if 16 ≤ s.musSubroutines.length ∨ target < 0 then none
      else some (false,
        { s2 with musDataPtr := target.toNat,
                  musSubroutines :=
                    { returnP := s2.musDataPtr, jumpP := target.toNat } :: s2.musSubroutines })

/-- Modelled from the spec: opcode 1 `musSetCountdown` — set the countdown
timer from the low nibble, or from the following byte when the nibble is
zero; the stream yields for this tick. -/
def musSetCountdown (param : Byte) (s : DriverState) : Option (Bool × DriverState) :=
  if param ≠ 0 then some (true, { s with musCountdownTimer := param })
  else
    match musReadByte s with
    | none => none
    | some (b, s1) => some (true, { s1 with musCountdownTimer := b })

/-- Modelled from the spec: opcode 2 `musSetInstrument` — record the
instrument pointer selected by the operand byte in slot `param`. -/
def musSetInstrument (param : Byte) (s : DriverState) : Option (Bool × DriverState) :=
  match musReadByte s with
  | none => none
  | some (b, s1) =>
    some (false, { s1 with musInstrumentPtrs := s1.musInstrumentPtrs.set (param % 16) (some b) })

/-- Modelled from the spec: opcode 3 `cmdNoOperation`, shared between the
streams — padding; does nothing. -/
def cmdNoOperation (param : Byte) (s : DriverState) : Option (Bool × DriverState) :=
  some (false, s)

/-- Modelled from the spec: opcode 4 `musSetPitchWheel` — read a signed
16-bit little-endian operand and bias channel `param`'s frequency word
additively, kept within the 17-bit OPL range, then emit the frequency
registers. -/
def musSetPitchWheel (param : Byte) (s : DriverState) : Option (Bool × DriverState) :=
  match musReadByte s with
  | none => none
  | some (lo, s1) =>
    match musReadByte s1 with
    | none => none
    | some (hi, s2) =>
      let c := (s2.channels[param % 16]?).getD Channel.init
      let newFreq := (((c.frequency : Int) + signed16 lo hi) % 131072).toNat
      some (false, setFrequency (param % 16) newFreq
        (updateChannel (param % 16) (fun ch => { ch with frequency := newFreq }) s2))

/-- Modelled from the spec: opcode 5 `musSkipWord` — skip two operand bytes
unconditionally; their meaning is not inferred. -/
def musSkipWord (param : Byte) (s : DriverState) : Option (Bool × DriverState) :=
  match musReadByte s with
  | none => none
  | some (_, s1) =>
    match musReadByte s1 with
    | none => none
    | some (_, s2) => some (false, s2)

/-- Modelled from the spec: opcode 6 `musSetPanning` — read the stereo
position operand and emit it to the channel's feedback/connection register. -/
def musSetPanning (param : Byte) (s : DriverState) : Option (Bool × DriverState) :=
  match musReadByte s with
  | none => none
  | some (b, s1) => some (false, s1.write (0xC0 + param % 16) b)

/-- Modelled from the spec: opcode 7 `musFade` — read two operand bytes and
arm the fade; the spec leaves the fade fields `_field180`..`_field182`
opaque, so only the recording of the operands is modelled. -/
def musFade (param : Byte) (s : DriverState) : Option (Bool × DriverState) :=
  match musReadByte s with
  | none => none
  | some (b0, s1) =>
    match musReadByte s1 with
    | none => none
    | some (b1, s2) => some (false, { s2 with field180 := b0, field181 := b1 })

/-- Modelled from the spec: opcode 8 `musStartNote` — read the note operand,
compute its OPL frequency word, store it in channel `param` and emit the
frequency registers with the key-on bit set. -/
def musStartNote (param : Byte) (s : DriverState) : Option (Bool × DriverState) :=
  match musReadByte s with
  | none => none
  | some (note, s1) =>
    let f := calcFrequency note
    let s2 := updateChannel (param % 16) (fun c => { c with frequency := f }) s1
    some (false, (s2.write (0xA0 + param % 16) (f % 256)).write (0xB0 + param % 16) (f / 256 + 0x20))

/-- Modelled from the spec: opcode 9 `musSetVolume` — read the volume
operand, clamp it to 0..127, store it as channel `param`'s base volume and
emit the resulting output level. -/
def musSetVolume (param : Byte) (s : DriverState) : Option (Bool × DriverState) :=
  match musReadByte s with
  | none => none
  | some (v, s1) =>
    let c := (s1.channels[param % 16]?).getD Channel.init
    let s2 := updateChannel (param % 16) (fun ch => { ch with volume := min v 127 }) s1
    some (false, setOutputLevel (param % 16)
      (calcOutputLevel (min v 127) c.scalingValue s2.musicVolume) s2)

/-- Modelled from the spec: opcode 10 `musInjectMidi` — length-prefixed raw
OPL register writes. The exact framing lives in the missing implementation
file; it is modelled as a count byte followed by that many (register,
value) pairs, all enqueued in order. -/
def musInjectMidi (param : Byte) (s : DriverState) : Option (Bool × DriverState) :=
  match musReadByte s with
  | none => none
  | some (n, s1) =>
    match musReadBytes (2 * n) s1 with
    | none => none
    | some (bs, s2) => some (false, enqueuePairs bs s2)

/-- Modelled from the spec: opcode 11 `musPlayInstrument` — read the channel
operand and upload instrument patch `param` to it: the patch parameters are
enqueued for the channel's two operator slots and the channel's scaling
value is set from the patch byte, clamped to 0..127. An unassigned
instrument slot is treated as silence. -/
def musPlayInstrument (param : Byte) (s : DriverState) : Option (Bool × DriverState) :=
  match musReadByte s with
  | none => none
  | some (ch, s1) =>
    match (s1.musInstrumentPtrs[param % 16]?).getD none with
    | none => some (false, s1)
    | some p =>
      let s2 := updateChannel (ch % 16) (fun c => { c with scalingValue := min p 127 }) s1
      some (false, (s2.write (0x20 + (OPERATOR1_INDEXES[ch % 16]?).getD 0) p).write
        (0x20 + (OPERATOR2_INDEXES[ch % 16]?).getD 0) p)

/-- Modelled from the spec: opcode 12 `cmdFreezeFrequency`, shared between
the streams — clear the glide flag on channel `param`. -/
def cmdFreezeFrequency (param : Byte) (s : DriverState) : Option (Bool × DriverState) :=
  some (false, updateChannel (param % 16) (fun c => { c with changeFrequency := false }) s)

/-- Modelled from the spec: opcode 13 `cmdChangeFrequency` — read three
operand bytes and arm the glide on channel `param`: the counter threshold
from the first byte, the signed per-tick delta from the remaining
little-endian pair. -/
def cmdChangeFrequency (param : Byte) (s : DriverState) : Option (Bool × DriverState) :=
  match musReadByte s with
  | none => none
  | some (b0, s1) =>
    match musReadByte s1 with
    | none => none
    | some (b1, s2) =>
      match musReadByte s2 with
      | none => none
      | some (b2, s3) =>
        some (false, updateChannel (param % 16) (fun c =>
          { c with changeFrequency := true, freqCtrChange := (b0 : Int),
                   freqCtr := 0, freqChange := signed16 b1 b2 }) s3)

/-- Modelled from the spec: opcode 14 `musEndSubroutine` — pop the top
subroutine frame and resume at its return pointer; with an empty stack the
stream has ended: the playing flag is cleared and the tick yields. The
handler is total, so the underflow case raises nothing. -/
def musEndSubroutine (param : Byte) (s : DriverState) : Option (Bool × DriverState) :=
  match s.musSubroutines with
  | [] => some (true, { s with musicPlaying := false })
  | f :: rest => some (false, { s with musDataPtr := f.returnP, musSubroutines := rest })

/-- Modelled from the spec: opcode 15 is reserved and treated as
end-of-stream — the playing flag is cleared and the tick yields. -/
def musEndOfStream (param : Byte) (s : DriverState) : Option (Bool × DriverState) :=
  some (true, { s with musicPlaying := false })

/-- Modelled from the spec: the `MUSIC_COMMANDS` dispatch table — select the
handler by the high nibble of the fetched command byte. -/
def musicOpcode (op param : Byte) (s : DriverState) : Option (Bool × DriverState) :=
  match op with
  | 0 => musCallSubroutine param s
  | 1 => musSetCountdown param s
  | 2 => musSetInstrument param s
  | 3 => cmdNoOperation param s
  | 4 => musSetPitchWheel param s
  | 5 => musSkipWord param s
  | 6 => musSetPanning param s
  | 7 => musFade param s
  | 8 => musStartNote param s
  | 9 => musSetVolume param s
  | 10 => musInjectMidi param s
  | 11 => musPlayInstrument param s
  | 12 => cmdFreezeFrequency param s
  | 13 => cmdChangeFrequency param s
  | 14 => musEndSubroutine param s
  | _ => musEndOfStream param s

/-- Modelled from the spec: the per-tick frequency glide of §4.C — while
`changeFrequency` is set, accumulate `freqChange` into `freqCtr`; when the
counter crosses `freqCtrChange`, bump the frequency word one unit in the
direction of the delta, within the 17-bit range. -/
def Channel.glideStep (c : Channel) : Channel :=
  if c.changeFrequency then
    if c.freqCtrChange ≤ c.freqCtr + c.freqChange then
      { c with freqCtr := c.freqCtr + c.freqChange - c.freqCtrChange,
               frequency :=
                 if 0 ≤ c.freqChange then (c.frequency + 1) % 131072
                 else (c.frequency - 1) % 131072 }
    else { c with freqCtr := c.freqCtr + c.freqChange }
  else c

/-- Apply the glide step to every channel. -/
def glideAll (cs : List Channel) : List Channel :=
  cs.map Channel.glideStep

/-- Modelled from the spec: `pausePostProcess` — post-processing while a
pause countdown is in progress. The spec describes the per-tick glide of
§4.C and leaves the fade handling (`_field180`..`_field182`) opaque, so
only the glide is modelled. -/
def pausePostProcess (s : DriverState) : DriverState :=
  { s with channels := glideAll s.channels }

/-- Modelled from the spec: the fetch-decode-dispatch loop of `execute` for
the music stream — fetch a byte, split it into nibbles, dispatch, and loop
until a handler yields. `fuel` bounds the number of opcodes in one tick; on
exhaustion, on a missing byte or on a malformed operand the stream is
terminated silently with the playing flag cleared (no exception escapes:
the function is total). The second component counts dispatched opcodes. -/
def musExecLoop : Nat → DriverState → DriverState × Nat
  | 0, s => ({ s with musicPlaying := false }, 0)
  | fuel + 1, s =>
    match musReadByte s with
    | none => ({ s with musicPlaying := false }, 0)
    | some (b, s1) =>
      match musicOpcode (b / 16) (b % 16) s1 with
      | none => ({ s1 with musicPlaying := false }, 1)
      | some (yield, s2) =>
        if yield then (s2, 1)
        else
          let r := musExecLoop fuel s2
          (r.1, r.2 + 1)

/-- Modelled from the spec: one timer tick of the music stream — nothing
happens when the stream is not playing; a positive countdown is decremented
(with pause post-processing) and the stream stays dormant; otherwise the
opcode loop runs. Also returns the number of music opcodes dispatched. -/
def musicTickC (fuel : Nat) (s : DriverState) : DriverState × Nat :=
  if s.musicPlaying then
    if 0 < s.musCountdownTimer then
      (pausePostProcess { s with musCountdownTimer := s.musCountdownTimer - 1 }, 0)
    else musExecLoop fuel s
  else (s, 0)

/-- One music tick, state only. -/
def musicTick (fuel : Nat) (s : DriverState) : DriverState :=
  (musicTickC fuel s).1

/-- Iterate the music tick, accumulating the dispatched-opcode count. -/
def multiTickC (fuel : Nat) : Nat → DriverState → DriverState × Nat
  | 0, s => (s, 0)
  | n + 1, s =>
    ((multiTickC fuel n (musicTickC fuel s).1).1,
      (musicTickC fuel s).2 + (multiTickC fuel n (musicTickC fuel s).1).2)

/-- Iterated music ticks, state only. -/
def multiTick (fuel n : Nat) (s : DriverState) : DriverState :=
  (multiTickC fuel n s).1

/-- Modelled from the spec: fetch one byte of the FX stream and advance its
instruction pointer; `none` off the end of the blob. -/
def fxReadByte (s : DriverState) : Option (Byte × DriverState) :=
  (s.fxData[s.fxDataPtr]?).map
    fun b => (b % 256, { s with fxDataPtr := s.fxDataPtr + 1 })

/-- Fetch `n` consecutive bytes of the FX stream. -/
def fxReadBytes : Nat → DriverState → Option (List Byte × DriverState)
  | 0, s => some ([], s)
  | n + 1, s =>
    match fxReadByte s with
    | none => none
    | some (b, s1) =>
      match fxReadBytes n s1 with
      | none => none
      | some (bs, s2) => some (b :: bs, s2)

/-- Modelled from the spec: `fxCallSubroutine` — as `musCallSubroutine`, on
the FX stream's pointer and stack. -/
def fxCallSubroutine (param : Byte) (s : DriverState) : Option (Bool × DriverState) :=
  match fxReadByte s with
  | none => none
  | some (lo, s1) =>
    match fxReadByte s1 with
    | none => none
    | some (hi, s2) =>
      let target : Int := (s.fxDataPtr : Int) + signed16 lo hi
      if 16 ≤ s.fxSubroutines.length ∨ target < 0 then none
      else some (false,
        { s2 with fxDataPtr := target.toNat,
                  fxSubroutines :=
                    { returnP := s2.fxDataPtr, jumpP := target.toNat } :: s2.fxSubroutines })

/-- Modelled from the spec: `fxSetCountdown` — as `musSetCountdown`, on the
FX countdown timer. -/
def fxSetCountdown (param : Byte) (s : DriverState) : Option (Bool × DriverState) :=
  if param ≠ 0 then some (true, { s with fxCountdownTimer := param })
  else
    match fxReadByte s with
    | none => none
    | some (b, s1) => some (true, { s1 with fxCountdownTimer := b })

/-- Modelled from the spec: `fxSetInstrument` — record the operand in FX
instrument slot `param`. -/
def fxSetInstrument (param : Byte) (s : DriverState) : Option (Bool × DriverState) :=
  match fxReadByte s with
  | none => none
  | some (b, s1) =>
    some (false, { s1 with fxInstrumentPtrs := s1.fxInstrumentPtrs.set (param % 16) (some b) })

/-- Modelled from the spec: `fxChannelOff` — key the channel's voice off by
clearing the key-on bit of its block register. -/
def fxChannelOff (param : Byte) (s : DriverState) : Option (Bool × DriverState) :=
  some (false, s.write (0xB0 + param % 16) 0)

/-- Modelled from the spec: `fxMidiReset` — reset the FX midi state; the
concrete register sequence lives in the missing implementation file and no
theorem depends on it, so no register traffic is modelled. -/
def fxMidiReset (param : Byte) (s : DriverState) : Option (Bool × DriverState) :=
  some (false, s)

/-- Modelled from the spec: `fxMidiDword` — consume a 32-bit operand. -/
def fxMidiDword (param : Byte) (s : DriverState) : Option (Bool × DriverState) :=
  match fxReadBytes 4 s with
  | none => none
  | some (_, s1) => some (false, s1)

/-- Modelled from the spec: `fxSetPanning` — as `musSetPanning`, reading
from the FX stream. -/
def fxSetPanning (param : Byte) (s : DriverState) : Option (Bool × DriverState) :=
  match fxReadByte s with
  | none => none
  | some (b, s1) => some (false, s1.write (0xC0 + param % 16) b)

/-- Modelled from the spec: `fxFade` — as `musFade`, reading from the FX
stream. -/
def fxFade (param : Byte) (s : DriverState) : Option (Bool × DriverState) :=
  match fxReadByte s with
  | none => none
  | some (b0, s1) =>
    match fxReadByte s1 with
    | none => none
    | some (b1, s2) => some (false, { s2 with field180 := b0, field181 := b1 })

/-- Modelled from the spec: `fxStartNote` — as `musStartNote`, reading from
the FX stream. -/
def fxStartNote (param : Byte) (s : DriverState) : Option (Bool × DriverState) :=
  match fxReadByte s with
  | none => none
  | some (note, s1) =>
    let f := calcFrequency note
    let s2 := updateChannel (param % 16) (fun c => { c with frequency := f }) s1
    some (false, (s2.write (0xA0 + param % 16) (f % 256)).write (0xB0 + param % 16) (f / 256 + 0x20))

/-- Modelled from the spec: `fxSetVolume` — as `musSetVolume`, against the
sound-effect master volume. -/
def fxSetVolume (param : Byte) (s : DriverState) : Option (Bool × DriverState) :=
  match fxReadByte s with
  | none => none
  | some (v, s1) =>
    let c := (s1.channels[param % 16]?).getD Channel.init
    let s2 := updateChannel (param % 16) (fun ch => { ch with volume := min v 127 }) s1
    some (false, setOutputLevel (param % 16)
      (calcOutputLevel (min v 127) c.scalingValue s2.sfxVolume) s2)

/-- Modelled from the spec: `fxInjectMidi` — as `musInjectMidi`, reading
from the FX stream. -/
def fxInjectMidi (param : Byte) (s : DriverState) : Option (Bool × DriverState) :=
  match fxReadByte s with
  | none => none
  | some (n, s1) =>
    match fxReadBytes (2 * n) s1 with
    | none => none
    | some (bs, s2) => some (false, enqueuePairs bs s2)

/-- Modelled from the spec: `fxPlayInstrument` — as `musPlayInstrument`,
from the FX instrument table. -/
def fxPlayInstrument (param : Byte) (s : DriverState) : Option (Bool × DriverState) :=
  match fxReadByte s with
  | none => none
  | some (ch, s1) =>
    match (s1.fxInstrumentPtrs[param % 16]?).getD none with
    | none => some (false, s1)
    | some p =>
      let s2 := updateChannel (ch % 16) (fun c => { c with scalingValue := min p 127 }) s1
      some (false, (s2.write (0x20 + (OPERATOR1_INDEXES[ch % 16]?).getD 0) p).write
        (0x20 + (OPERATOR2_INDEXES[ch % 16]?).getD 0) p)

/-- Modelled from the spec: `cmdFreezeFrequency` on the FX stream (the
handler reads no operands, so it coincides with the music one). -/
def fxFreezeFrequency (param : Byte) (s : DriverState) : Option (Bool × DriverState) :=
  cmdFreezeFrequency param s

/-- Modelled from the spec: `cmdChangeFrequency` on the FX stream — as the
music one, reading the three operands from the FX stream. -/
def fxChangeFrequency (param : Byte) (s : DriverState) : Option (Bool × DriverState) :=
  match fxReadByte s with
  | none => none
  | some (b0, s1) =>
    match fxReadByte s1 with
    | none => none
    | some (b1, s2) =>
      match fxReadByte s2 with
      | none => none
      | some (b2, s3) =>
        some (false, updateChannel (param % 16) (fun c =>
          { c with changeFrequency := true, freqCtrChange := (b0 : Int),
                   freqCtr := 0, freqChange := signed16 b1 b2 }) s3)

/-- Modelled from the spec: `fxEndSubroutine` — as `musEndSubroutine`, on
the FX stack and playing flag. -/
def fxEndSubroutine (param : Byte) (s : DriverState) : Option (Bool × DriverState) :=
  match s.fxSubroutines with
  | [] => some (true, { s with fxPlaying := false })
  | f :: rest => some (false, { s with fxDataPtr := f.returnP, fxSubroutines := rest })

/-- Modelled from the spec: opcode 15 of the FX stream — end-of-stream. -/
def fxEndOfStream (param : Byte) (s : DriverState) : Option (Bool × DriverState) :=
  some (true, { s with fxPlaying := false })

/-- Modelled from the spec: the `FX_COMMANDS` dispatch table. The spec fixes
the diverging entries (`fxSetVolume`, `fxMidiReset`, `fxMidiDword`,
`fxChannelOff`) but not their slots; they are placed at the slots of the
music-only opcodes they replace plus the padding slot, and no theorem
depends on the layout. -/
def fxOpcode (op param : Byte) (s : DriverState) : Option (Bool × DriverState) :=
  match op with
  | 0 => fxCallSubroutine param s
  | 1 => fxSetCountdown param s
  | 2 => fxSetInstrument param s
  | 3 => fxChannelOff param s
  | 4 => fxMidiReset param s
  | 5 => fxMidiDword param s
  | 6 => fxSetPanning param s
  | 7 => fxFade param s
  | 8 => fxStartNote param s
  | 9 => fxSetVolume param s
  | 10 => fxInjectMidi param s
  | 11 => fxPlayInstrument param s
  | 12 => fxFreezeFrequency param s
  | 13 => fxChangeFrequency param s
  | 14 => fxEndSubroutine param s
  | _ => fxEndOfStream param s

/-- Modelled from the spec: the opcode loop of `execute` for the FX stream;
see `musExecLoop`. -/
def fxExecLoop : Nat → DriverState → DriverState
  | 0, s => { s with fxPlaying := false }
  | fuel + 1, s =>
    match fxReadByte s with
    | none => { s with fxPlaying := false }
    | some (b, s1) =>
      match fxOpcode (b / 16) (b % 16) s1 with
      | none => { s1 with fxPlaying := false }
      | some (yield, s2) => if yield then s2 else fxExecLoop fuel s2

/-- Modelled from the spec: one timer tick of the FX stream; see
`musicTickC`. -/
def fxTick (fuel : Nat) (s : DriverState) : DriverState :=
  if s.fxPlaying then
    if 0 < s.fxCountdownTimer then
      pausePostProcess { s with fxCountdownTimer := s.fxCountdownTimer - 1 }
    else fxExecLoop fuel s
  else s

/-- Modelled from the spec: `flush` — dequeue the pending register writes
one at a time and send each to the OPL, until the queue is empty. The first
component is the remaining queue, the second the writes sent so far. -/
def flushLoop : List RegisterValue → List RegisterValue → List RegisterValue × List RegisterValue
  | [], emitted => ([], emitted)
  | r :: rest, emitted => flushLoop rest (emitted ++ [r])

/-- Drain the write queue to the OPL sink; returns the new state and the
(register, value) pairs emitted, in emission order. -/
def flush (s : DriverState) : DriverState × List RegisterValue :=
  let r := flushLoop s.queue []
  ({ s with queue := r.1 }, r.2)

/-- Modelled from the spec: the OPL timer callback `onTimer` — under the
driver mutex, drain the write queue to the chip, bump the frame counter,
then run the music stream and then the FX stream. Returns the new state and
the register writes emitted to the OPL by the drain. -/
def onTimer (fuel : Nat) (s : DriverState) : DriverState × List RegisterValue :=
  let r := flush s
  (fxTick fuel (musicTick fuel { r.1 with frameCtr := r.1.frameCtr + 1 }), r.2)

/-- Modelled from the spec: `playSong` — stop any current song, reset the
music stream, point the start and data pointers at the new blob, clear the
music subroutine stack and mark music playing. -/
def playSong (data : List Byte) (s : DriverState) : DriverState :=
  { s with musData := data, musDataPtr := 0, musStartPtr := 0,
           musSubroutines := [], musCountdownTimer := 0, musicPlaying := true }

/-- Modelled from the spec: `playFX` — point the FX stream at the new blob,
clear the FX subroutine stack and mark FX playing; the effect id is
advisory and does not enter the stream state. -/
def playFX (effectId : Nat) (data : List Byte) (s : DriverState) : DriverState :=
  { s with fxData := data, fxDataPtr := 0, fxStartPtr := 0,
           fxSubroutines := [], fxCountdownTimer := 0, fxPlaying := true }

/-- Modelled from the spec: `resetFX` — restore the channels the FX stream
may have claimed; the concrete register sequence lives in the missing
implementation file, modelled as key-off writes for the two drum channels. -/
def resetFX (s : DriverState) : DriverState :=
  (s.write 0xB7 0).write 0xB8 0

/-- Modelled from the spec: `stopFX` — clear the FX playing flag and reset
any sound effect. -/
def stopFX (s : DriverState) : DriverState :=
  resetFX { s with fxPlaying := false }

/-- Modelled from the spec: the `SET_VOLUME` path of `songCommand` — after
recording the new master volumes, emit an output-level register update for
every channel below `n`. -/
def emitChannelLevels : Nat → DriverState → DriverState
  | 0, s => s
  | i + 1, s =>
    let s1 := emitChannelLevels i s
    let c := (s1.channels[i]?).getD Channel.init
    setOutputLevel i (calcOutputLevel c.volume c.scalingValue s1.musicVolume) s1

/-- Modelled from the spec: `songCommand` — `STOP_SONG` clears the music
playing flag; `RESTART_SONG` rewinds the data pointer to the start pointer,
clears the subroutine stack and marks music playing; `SET_VOLUME` records
the master volumes and emits register updates for all channels;
`GET_STATUS` returns non-zero exactly when music is playing. Every command
other than `GET_STATUS` returns zero. -/
def songCommand (commandId : Nat) (musicVolume sfxVolume : Byte) (s : DriverState) :
    DriverState × Int :=
  if commandId = MusicCommand.STOP_SONG.value then
    ({ s with musicPlaying := false }, 0)
  else if commandId = MusicCommand.RESTART_SONG.value then
    ({ s with musDataPtr := s.musStartPtr, musSubroutines := [], musicPlaying := true }, 0)
  else if commandId = MusicCommand.SET_VOLUME.value then
    (emitChannelLevels CHANNEL_COUNT
      { s with musicVolume := musicVolume % 256, sfxVolume := sfxVolume % 256 }, 0)
  else if commandId = MusicCommand.GET_STATUS.value then
    (s, if s.musicPlaying then 1 else 0)
  else (s, 0)

/-- The register writes a `songCommand` call adds to the queue: the part of
the resulting queue past the prior contents. -/
def songCommandWrites (commandId : Nat) (musicVolume sfxVolume : Byte) (s : DriverState) :
    List RegisterValue :=
  ((songCommand commandId musicVolume sfxVolume s).1.queue).drop s.queue.length

/-- The inline body of `isPlaying` from the header: `return _musicPlaying;`.
The member is `const`, so in the embedding it is a pure function of the
state. -/
def isPlaying (s : DriverState) : Bool :=
  s.musicPlaying

/-- Bounds required of every channel by the spec's invariant: base volume
and scaling value within 0..127 and the frequency word within 17 bits. -/
def ChannelOk (c : Channel) : Prop :=
  c.volume ≤ 127 ∧ c.scalingValue ≤ 127 ∧ c.frequency < 131072

instance (c : Channel) : Decidable (ChannelOk c) := by
  unfold ChannelOk; infer_instance

/-- The channel-table invariant: every channel satisfies `ChannelOk`. -/
def ChannelInv (s : DriverState) : Prop :=
  ∀ c ∈ s.channels, ChannelOk c

instance (s : DriverState) : Decidable (ChannelInv s) :=
  List.decidableBAll _ _

/-- Relation preserved by every interpreter step: the music blob and its
start pointer are untouched and the channel invariant is carried along. -/
def Pres (s t : DriverState) : Prop :=
  t.musData = s.musData ∧ t.musStartPtr = s.musStartPtr ∧ (ChannelInv s → ChannelInv t)

/-- Conclusion of the countdown-monotonicity claim for a state about to
execute two consecutive extended `musSetCountdown` commands with values
`c1` and `c2`: the first tick dispatches exactly that opcode and arms the
countdown; the following `c1` ticks dispatch nothing and only decrement the
timer; the next tick dispatches exactly the second `musSetCountdown`; the
following `c2` ticks again dispatch nothing and only decrement — so the
`c1 + c2` ticks between the two arming dispatches and the expiry of the
second countdown dispatch no music opcode at all. -/
def CountdownConclusion (fuel : Nat) (s : DriverState) (c1 c2 : Nat) : Prop :=
  ∃ s1, musicTickC fuel s = (s1, 1) ∧
    s1.musStream =
      { s.musStream with dataPtr := s.musDataPtr + 2, countdownTimer := c1 } ∧
    (∀ k, k ≤ c1 → (multiTickC fuel k s1).2 = 0 ∧
      (multiTickC fuel k s1).1.musStream =
        { s1.musStream with countdownTimer := c1 - k }) ∧
    ∃ s2, musicTickC fuel (multiTick fuel c1 s1) = (s2, 1) ∧
      s2.musStream =
        { s.musStream with dataPtr := s.musDataPtr + 4, countdownTimer := c2 } ∧
      ∀ k, k ≤ c2 → (multiTickC fuel k s2).2 = 0 ∧
        (multiTickC fuel k s2).1.musStream =
          { s2.musStream with countdownTimer := c2 - k }

/-- Conclusion of the channel-invariant claim at a state `s`: the invariant
survives a music tick, an FX tick, a full timer callback, and every control
surface operation, and it holds in the freshly constructed driver. -/
def InvariantConclusion (s : DriverState) : Prop :=
  (∀ fuel, ChannelInv (musicTick fuel s)) ∧
  (∀ fuel, ChannelInv (fxTick fuel s)) ∧
  (∀ fuel, ChannelInv (onTimer fuel s).1) ∧
  (∀ B, ChannelInv (playSong B s)) ∧
  (∀ effectId B, ChannelInv (playFX effectId B s)) ∧
  ChannelInv (stopFX s) ∧
  (∀ commandId mv sv, ChannelInv (songCommand commandId mv sv s).1) ∧
  ChannelInv initState

theorem pres_refl (s : DriverState) : Pres s s :=
  ⟨rfl, rfl, id⟩

theorem pres_trans {a b c : DriverState} (h1 : Pres a b) (h2 : Pres b c) : Pres a c :=
  ⟨h2.1.trans h1.1, h2.2.1.trans h1.2.1, fun h => h2.2.2 (h1.2.2 h)⟩

theorem pres_write (s : DriverState) (r v : Int) : Pres s (s.write r v) :=
  ⟨rfl, rfl, id⟩

theorem pres_setOutputLevel (s : DriverState) (ch lv : Nat) :
    Pres s (setOutputLevel ch lv s) :=
  ⟨rfl, rfl, id⟩

theorem pres_setFrequency (s : DriverState) (ch f : Nat) :
    Pres s (setFrequency ch f s) :=
  ⟨rfl, rfl, id⟩

theorem pres_enqueuePairs : ∀ (bs : List Byte) (s : DriverState), Pres s (enqueuePairs bs s)
  | [], s => pres_refl s
  | [_], s => pres_refl s
  | _ :: _ :: rest, s => pres_trans (pres_write s _ _) (pres_enqueuePairs rest _)

theorem channelInv_updateChannel {f : Channel → Channel}
    (hf : ∀ c, ChannelOk c → ChannelOk (f c)) (i : Nat) {s : DriverState}
    (h : ChannelInv s) : ChannelInv (updateChannel i f s) := by
  unfold updateChannel
  cases hg : s.channels[i]? with
  | none => exact h
  | some c =>
    intro x hx
    rcases List.mem_or_eq_of_mem_set hx with h1 | rfl
    · exact h x h1
    · exact hf c (h c (List.getElem?_mem hg))

theorem pres_updateChannel {f : Channel → Channel}
    (hf : ∀ c, ChannelOk c → ChannelOk (f c)) (i : Nat) (s : DriverState) :
    Pres s (updateChannel i f s) := by
  refine ⟨?_, ?_, channelInv_updateChannel hf i⟩ <;>
    · unfold updateChannel; cases s.channels[i]? <;> rfl

theorem musReadByte_some {s : DriverState} {b : Byte} {t : DriverState}
    (h : musReadByte s = some (b, t)) :
    t = { s with musDataPtr := s.musDataPtr + 1 } := by
  unfold musReadByte at h
  cases hg : s.musData[s.musDataPtr]? with
  | none => rw [hg] at h; simp at h
  | some v => rw [hg] at h; simp at h; exact h.2.symm

theorem pres_musReadByte {s : DriverState} {b : Byte} {t : DriverState}
    (h : musReadByte s = some (b, t)) : Pres s t := by
  rw [musReadByte_some h]; exact ⟨rfl, rfl, id⟩

theorem pres_musReadBytes :
    ∀ {n : Nat} {s : DriverState} {bs : List Byte} {t : DriverState},
      musReadBytes n s = some (bs, t) → Pres s t := by
  intro n
  induction n with
  | zero =>
    intro s bs t h
    unfold musReadBytes at h
    simp at h
    obtain ⟨h1, h2⟩ := h
    subst h2
    exact pres_refl s
  | succ n ih =>
    intro s bs t h
    unfold musReadBytes at h
    cases h1 : musReadByte s with
    | none => simp [h1] at h
    | some r =>
      obtain ⟨b, s1⟩ := r
      simp only [h1] at h
      cases h2 : musReadBytes n s1 with
      | none => simp [h2] at h
      | some r2 =>
        obtain ⟨bs2, s2⟩ := r2
        simp only [h2, Option.some.injEq, Prod.mk.injEq] at h
        obtain ⟨h3, h4⟩ := h
        subst h4
        exact pres_trans (pres_musReadByte h1) (ih h2)

theorem fxReadByte_some {s : DriverState} {b : Byte} {t : DriverState}
    (h : fxReadByte s = some (b, t)) :
    t = { s with fxDataPtr := s.fxDataPtr + 1 } := by
  unfold fxReadByte at h
  cases hg : s.fxData[s.fxDataPtr]? with
  | none => rw [hg] at h; simp at h
  | some v => rw [hg] at h; simp at h; exact h.2.symm

theorem pres_fxReadByte {s : DriverState} {b : Byte} {t : DriverState}
    (h : fxReadByte s = some (b, t)) : Pres s t := by
  rw [fxReadByte_some h]; exact ⟨rfl, rfl, id⟩

theorem pres_fxReadBytes :
    ∀ {n : Nat} {s : DriverState} {bs : List Byte} {t : DriverState},
      fxReadBytes n s = some (bs, t) → Pres s t := by
  intro n
  induction n with
  | zero =>
    intro s bs t h
    unfold fxReadBytes at h
    simp at h
    obtain ⟨h1, h2⟩ := h
    subst h2
    exact pres_refl s
  | succ n ih =>
    intro s bs t h
    unfold fxReadBytes at h
    cases h1 : fxReadByte s with
    | none => simp [h1] at h
    | some r =>
      obtain ⟨b, s1⟩ := r
      simp only [h1] at h
      cases h2 : fxReadBytes n s1 with
      | none => simp [h2] at h
      | some r2 =>
        obtain ⟨bs2, s2⟩ := r2
        simp only [h2, Option.some.injEq, Prod.mk.injEq] at h
        obtain ⟨h3, h4⟩ := h
        subst h4
        exact pres_trans (pres_fxReadByte h1) (ih h2)

theorem fnumber_le (i : Nat) : (FNUMBER_TABLE[i]?).getD 0 ≤ 647 := by
  by_cases h : i < 12
  · interval_cases i <;> decide
  · rw [List.getElem?_eq_none (by simp [FNUMBER_TABLE]; omega)]; decide

theorem calcFrequency_lt (note : Byte) : calcFrequency note < 131072 := by
  unfold calcFrequency
  have h1 := fnumber_le (note % 16)
  have h2 : note / 16 % 8 < 8 := Nat.mod_lt _ (by norm_num)
  have : note / 16 % 8 * 1024 ≤ 7 * 1024 := Nat.mul_le_mul_right _ (by omega)
  omega

theorem channelOk_glideStep {c : Channel} (h : ChannelOk c) :
    ChannelOk c.glideStep := by
  obtain ⟨h1, h2, h3⟩ := h
  unfold Channel.glideStep
  split
  · split
    · refine ⟨h1, h2, ?_⟩
      show (if 0 ≤ c.freqChange then (c.frequency + 1) % 131072
            else (c.frequency - 1) % 131072) < 131072
      split <;> exact Nat.mod_lt _ (by norm_num)
    · exact ⟨h1, h2, h3⟩
  · exact ⟨h1, h2, h3⟩

theorem channelInv_glideAll {cs : List Channel} (h : ∀ c ∈ cs, ChannelOk c) :
    ∀ c ∈ glideAll cs, ChannelOk c := by
  intro c hc
  unfold glideAll at hc
  obtain ⟨a, ha, rfl⟩ := List.mem_map.mp hc
  exact channelOk_glideStep (h a ha)

theorem pres_pausePostProcess (s : DriverState) : Pres s (pausePostProcess s) :=
  ⟨rfl, rfl, fun h => channelInv_glideAll h⟩

theorem emod_toNat_lt_131072 (x : Int) : (x % 131072).toNat < 131072 := by
  omega

theorem pres_musCallSubroutine {p : Byte} {s : DriverState} {y : Bool} {t : DriverState}
    (h : musCallSubroutine p s = some (y, t)) : Pres s t := by
  unfold musCallSubroutine at h
  cases h1 : musReadByte s with
  | none => simp [h1] at h
  | some r =>
    obtain ⟨lo, s1⟩ := r
    simp only [h1] at h
    cases h2 : musReadByte s1 with
    | none => simp [h2] at h
    | some r2 =>
      obtain ⟨hi, s2⟩ := r2
      simp only [h2] at h
      split at h
      · simp at h
      · simp only [Option.some.injEq, Prod.mk.injEq] at h
        obtain ⟨hy, ht⟩ := h
        subst ht
        exact pres_trans (pres_musReadByte h1)
          (pres_trans (pres_musReadByte h2) ⟨rfl, rfl, id⟩)

theorem pres_musSetCountdown {p : Byte} {s : DriverState} {y : Bool} {t : DriverState}
    (h : musSetCountdown p s = some (y, t)) : Pres s t := by
  unfold musSetCountdown at h
  split at h
  · simp only [Option.some.injEq, Prod.mk.injEq] at h
    obtain ⟨hy, ht⟩ := h
    subst ht
    exact ⟨rfl, rfl, id⟩
  · cases h1 : musReadByte s with
    | none => simp [h1] at h
    | some r =>
      obtain ⟨b, s1⟩ := r
      simp only [h1, Option.some.injEq, Prod.mk.injEq] at h
      obtain ⟨hy, ht⟩ := h
      subst ht
      exact pres_trans (pres_musReadByte h1) ⟨rfl, rfl, id⟩

theorem pres_musSetInstrument {p : Byte} {s : DriverState} {y : Bool} {t : DriverState}
    (h : musSetInstrument p s = some (y, t)) : Pres s t := by
  unfold musSetInstrument at h
  cases h1 : musReadByte s with
  | none => simp [h1] at h
  | some r =>
    obtain ⟨b, s1⟩ := r
    simp only [h1, Option.some.injEq, Prod.mk.injEq] at h
    obtain ⟨hy, ht⟩ := h
    subst ht
    exact pres_trans (pres_musReadByte h1) ⟨rfl, rfl, id⟩

theorem pres_cmdNoOperation {p : Byte} {s : DriverState} {y : Bool} {t : DriverState}
    (h : cmdNoOperation p s = some (y, t)) : Pres s t := by
  unfold cmdNoOperation at h
  simp only [Option.some.injEq, Prod.mk.injEq] at h
  obtain ⟨hy, ht⟩ := h
  subst ht
  exact pres_refl s

theorem pres_musSetPitchWheel {p : Byte} {s : DriverState} {y : Bool} {t : DriverState}
    (h : musSetPitchWheel p s = some (y, t)) : Pres s t := by
  unfold musSetPitchWheel at h
  cases h1 : musReadByte s with
  | none => simp [h1] at h
  | some r =>
    obtain ⟨lo, s1⟩ := r
    simp only [h1] at h
    cases h2 : musReadByte s1 with
    | none => simp [h2] at h
    | some r2 =>
      obtain ⟨hi, s2⟩ := r2
      simp only [h2, Option.some.injEq, Prod.mk.injEq] at h
      obtain ⟨hy, ht⟩ := h
      subst ht
      refine pres_trans (pres_musReadByte h1) (pres_trans (pres_musReadByte h2)
        (pres_trans (pres_updateChannel ?_ _ _) (pres_setFrequency _ _ _)))
      intro c hc
      exact ⟨hc.1, hc.2.1, emod_toNat_lt_131072 _⟩

theorem pres_musSkipWord {p : Byte} {s : DriverState} {y : Bool} {t : DriverState}
    (h : musSkipWord p s = some (y, t)) : Pres s t := by
  unfold musSkipWord at h
  cases h1 : musReadByte s with
  | none => simp [h1] at h
  | some r =>
    obtain ⟨b0, s1⟩ := r
    simp only [h1] at h
    cases h2 : musReadByte s1 with
    | none => simp [h2] at h
    | some r2 =>
      obtain ⟨b1, s2⟩ := r2
      simp only [h2, Option.some.injEq, Prod.mk.injEq] at h
      obtain ⟨hy, ht⟩ := h
      subst ht
      exact pres_trans (pres_musReadByte h1) (pres_musReadByte h2)

theorem pres_musSetPanning {p : Byte} {s : DriverState} {y : Bool} {t : DriverState}
    (h : musSetPanning p s = some (y, t)) : Pres s t := by
  unfold musSetPanning at h
  cases h1 : musReadByte s with
  | none => simp [h1] at h
  | some r =>
    obtain ⟨b, s1⟩ := r
    simp only [h1, Option.some.injEq, Prod.mk.injEq] at h
    obtain ⟨hy, ht⟩ := h
    subst ht
    exact pres_trans (pres_musReadByte h1) (pres_write _ _ _)

theorem pres_musFade {p : Byte} {s : DriverState} {y : Bool} {t : DriverState}
    (h : musFade p s = some (y, t)) : Pres s t := by
  unfold musFade at h
  cases h1 : musReadByte s with
  | none => simp [h1] at h
  | some r =>
    obtain ⟨b0, s1⟩ := r
    simp only [h1] at h
    cases h2 : musReadByte s1 with
    | none => simp [h2] at h
    | some r2 =>
      obtain ⟨b1, s2⟩ := r2
      simp only [h2, Option.some.injEq, Prod.mk.injEq] at h
      obtain ⟨hy, ht⟩ := h
      subst ht
      exact pres_trans (pres_musReadByte h1)
        (pres_trans (pres_musReadByte h2) ⟨rfl, rfl, id⟩)

theorem pres_musStartNote {p : Byte} {s : DriverState} {y : Bool} {t : DriverState}
    (h : musStartNote p s = some (y, t)) : Pres s t := by
  unfold musStartNote at h
  cases h1 : musReadByte s with
  | none => simp [h1] at h
  | some r =>
    obtain ⟨note, s1⟩ := r
    simp only [h1, Option.some.injEq, Prod.mk.injEq] at h
    obtain ⟨hy, ht⟩ := h
    subst ht
    refine pres_trans (pres_musReadByte h1) (pres_trans (pres_updateChannel ?_ _ _)
      (pres_trans (pres_write _ _ _) (pres_write _ _ _)))
    intro c hc
    exact ⟨hc.1, hc.2.1, calcFrequency_lt note⟩

theorem pres_musSetVolume {p : Byte} {s : DriverState} {y : Bool} {t : DriverState}
    (h : musSetVolume p s = some (y, t)) : Pres s t := by
  unfold musSetVolume at h
  cases h1 : musReadByte s with
  | none => simp [h1] at h
  | some r =>
    obtain ⟨v, s1⟩ := r
    simp only [h1, Option.some.injEq, Prod.mk.injEq] at h
    obtain ⟨hy, ht⟩ := h
    subst ht
    refine pres_trans (pres_musReadByte h1) (pres_trans (pres_updateChannel ?_ _ _)
      (pres_setOutputLevel _ _ _))
    intro c hc
    exact ⟨min_le_right _ _, hc.2.1, hc.2.2⟩

theorem pres_musInjectMidi {p : Byte} {s : DriverState} {y : Bool} {t : DriverState}
    (h : musInjectMidi p s = some (y, t)) : Pres s t := by
  unfold musInjectMidi at h
  cases h1 : musReadByte s with
  | none => simp [h1] at h
  | some r =>
    obtain ⟨n, s1⟩ := r
    simp only [h1] at h
    cases h2 : musReadBytes (2 * n) s1 with
    | none => simp [h2] at h
    | some r2 =>
      obtain ⟨bs, s2⟩ := r2
      simp only [h2, Option.some.injEq, Prod.mk.injEq] at h
      obtain ⟨hy, ht⟩ := h
      subst ht
      exact pres_trans (pres_musReadByte h1)
        (pres_trans (pres_musReadBytes h2) (pres_enqueuePairs bs s2))

theorem pres_musPlayInstrument {p : Byte} {s : DriverState} {y : Bool} {t : DriverState}
    (h : musPlayInstrument p s = some (y, t)) : Pres s t := by
  unfold musPlayInstrument at h
  cases h1 : musReadByte s with
  | none => simp [h1] at h
  | some r =>
    obtain ⟨ch, s1⟩ := r
    simp only [h1] at h
    cases h2 : (s1.musInstrumentPtrs[p % 16]?).getD none with
    | none =>
      rw [h2] at h
      simp only [Option.some.injEq, Prod.mk.injEq] at h
      obtain ⟨hy, ht⟩ := h
      subst ht
      exact pres_musReadByte h1
    | some q =>
      rw [h2] at h
      simp only [Option.some.injEq, Prod.mk.injEq] at h
      obtain ⟨hy, ht⟩ := h
      subst ht
      refine pres_trans (pres_musReadByte h1) (pres_trans (pres_updateChannel ?_ _ _)
        (pres_trans (pres_write _ _ _) (pres_write _ _ _)))
      intro c hc
      exact ⟨hc.1, min_le_right _ _, hc.2.2⟩

theorem pres_cmdFreezeFrequency {p : Byte} {s : DriverState} {y : Bool} {t : DriverState}
    (h : cmdFreezeFrequency p s = some (y, t)) : Pres s t := by
  unfold cmdFreezeFrequency at h
  simp only [Option.some.injEq, Prod.mk.injEq] at h
  obtain ⟨hy, ht⟩ := h
  subst ht
  refine pres_updateChannel ?_ _ _
  intro c hc
  exact ⟨hc.1, hc.2.1, hc.2.2⟩

theorem pres_cmdChangeFrequency {p : Byte} {s : DriverState} {y : Bool} {t : DriverState}
    (h : cmdChangeFrequency p s = some (y, t)) : Pres s t := by
  unfold cmdChangeFrequency at h
  cases h1 : musReadByte s with
  | none => simp [h1] at h
  | some r =>
    obtain ⟨b0, s1⟩ := r
    simp only [h1] at h
    cases h2 : musReadByte s1 with
    | none => simp [h2] at h
    | some r2 =>
      obtain ⟨b1, s2⟩ := r2
      simp only [h2] at h
      cases h3 : musReadByte s2 with
      | none => simp [h3] at h
      | some r3 =>
        obtain ⟨b2, s3⟩ := r3
        simp only [h3, Option.some.injEq, Prod.mk.injEq] at h
        obtain ⟨hy, ht⟩ := h
        subst ht
        refine pres_trans (pres_musReadByte h1) (pres_trans (pres_musReadByte h2)
          (pres_trans (pres_musReadByte h3) (pres_updateChannel ?_ _ _)))
        intro c hc
        exact ⟨hc.1, hc.2.1, hc.2.2⟩

theorem pres_musEndSubroutine {p : Byte} {s : DriverState} {y : Bool} {t : DriverState}
    (h : musEndSubroutine p s = some (y, t)) : Pres s t := by
  unfold musEndSubroutine at h
  cases hs : s.musSubroutines with
  | nil =>
    rw [hs] at h
    simp only [Option.some.injEq, Prod.mk.injEq] at h
    obtain ⟨hy, ht⟩ := h
    subst ht
    exact ⟨rfl, rfl, id⟩
  | cons f rest =>
    rw [hs] at h
    simp only [Option.some.injEq, Prod.mk.injEq] at h
    obtain ⟨hy, ht⟩ := h
    subst ht
    exact ⟨rfl, rfl, id⟩

theorem pres_musEndOfStream {p : Byte} {s : DriverState} {y : Bool} {t : DriverState}
    (h : musEndOfStream p s = some (y, t)) : Pres s t := by
  unfold musEndOfStream at h
  simp only [Option.some.injEq, Prod.mk.injEq] at h
  obtain ⟨hy, ht⟩ := h
  subst ht
  exact ⟨rfl, rfl, id⟩

theorem pres_musicOpcode {op p : Byte} {s : DriverState} {y : Bool} {t : DriverState}
    (h : musicOpcode op p s = some (y, t)) : Pres s t := by
  unfold musicOpcode at h
  split at h
  · exact pres_musCallSubroutine h
  · exact pres_musSetCountdown h
  · exact pres_musSetInstrument h
  · exact pres_cmdNoOperation h
  · exact pres_musSetPitchWheel h
  · exact pres_musSkipWord h
  · exact pres_musSetPanning h
  · exact pres_musFade h
  · exact pres_musStartNote h
  · exact pres_musSetVolume h
  · exact pres_musInjectMidi h
  · exact pres_musPlayInstrument h
  · exact pres_cmdFreezeFrequency h
  · exact pres_cmdChangeFrequency h
  · exact pres_musEndSubroutine h
  · exact pres_musEndOfStream h

theorem pres_fxCallSubroutine {p : Byte} {s : DriverState} {y : Bool} {t : DriverState}
    (h : fxCallSubroutine p s = some (y, t)) : Pres s t := by
  unfold fxCallSubroutine at h
  cases h1 : fxReadByte s with
  | none => simp [h1] at h
  | some r =>
    obtain ⟨lo, s1⟩ := r
    simp only [h1] at h
    cases h2 : fxReadByte s1 with
    | none => simp [h2] at h
    | some r2 =>
      obtain ⟨hi, s2⟩ := r2
      simp only [h2] at h
      split at h
      · simp at h
      · simp only [Option.some.injEq, Prod.mk.injEq] at h
        obtain ⟨hy, ht⟩ := h
        subst ht
        exact pres_trans (pres_fxReadByte h1)
          (pres_trans (pres_fxReadByte h2) ⟨rfl, rfl, id⟩)

theorem pres_fxSetCountdown {p : Byte} {s : DriverState} {y : Bool} {t : DriverState}
    (h : fxSetCountdown p s = some (y, t)) : Pres s t := by
  unfold fxSetCountdown at h
  split at h
  · simp only [Option.some.injEq, Prod.mk.injEq] at h
    obtain ⟨hy, ht⟩ := h
    subst ht
    exact ⟨rfl, rfl, id⟩
  · cases h1 : fxReadByte s with
    | none => simp [h1] at h
    | some r =>
      obtain ⟨b, s1⟩ := r
      simp only [h1, Option.some.injEq, Prod.mk.injEq] at h
      obtain ⟨hy, ht⟩ := h
      subst ht
      exact pres_trans (pres_fxReadByte h1) ⟨rfl, rfl, id⟩

theorem pres_fxSetInstrument {p : Byte} {s : DriverState} {y : Bool} {t : DriverState}
    (h : fxSetInstrument p s = some (y, t)) : Pres s t := by
  unfold fxSetInstrument at h
  cases h1 : fxReadByte s with
  | none => simp [h1] at h
  | some r =>
    obtain ⟨b, s1⟩ := r
    simp only [h1, Option.some.injEq, Prod.mk.injEq] at h
    obtain ⟨hy, ht⟩ := h
    subst ht
    exact pres_trans (pres_fxReadByte h1) ⟨rfl, rfl, id⟩

theorem pres_fxChannelOff {p : Byte} {s : DriverState} {y : Bool} {t : DriverState}
    (h : fxChannelOff p s = some (y, t)) : Pres s t := by
  unfold fxChannelOff at h
  simp only [Option.some.injEq, Prod.mk.injEq] at h
  obtain ⟨hy, ht⟩ := h
  subst ht
  exact pres_write _ _ _

theorem pres_fxMidiReset {p : Byte} {s : DriverState} {y : Bool} {t : DriverState}
    (h : fxMidiReset p s = some (y, t)) : Pres s t := by
  unfold fxMidiReset at h
  simp only [Option.some.injEq, Prod.mk.injEq] at h
  obtain ⟨hy, ht⟩ := h
  subst ht
  exact pres_refl s

theorem pres_fxMidiDword {p : Byte} {s : DriverState} {y : Bool} {t : DriverState}
    (h : fxMidiDword p s = some (y, t)) : Pres s t := by
  unfold fxMidiDword at h
  cases h1 : fxReadBytes 4 s with
  | none => simp [h1] at h
  | some r =>
    obtain ⟨bs, s1⟩ := r
    simp only [h1, Option.some.injEq, Prod.mk.injEq] at h
    obtain ⟨hy, ht⟩ := h
    subst ht
    exact pres_fxReadBytes h1

theorem pres_fxSetPanning {p : Byte} {s : DriverState} {y : Bool} {t : DriverState}
    (h : fxSetPanning p s = some (y, t)) : Pres s t := by
  unfold fxSetPanning at h
  cases h1 : fxReadByte s with
  | none => simp [h1] at h
  | some r =>
    obtain ⟨b, s1⟩ := r
    simp only [h1, Option.some.injEq, Prod.mk.injEq] at h
    obtain ⟨hy, ht⟩ := h
    subst ht
    exact pres_trans (pres_fxReadByte h1) (pres_write _ _ _)

theorem pres_fxFade {p : Byte} {s : DriverState} {y : Bool} {t : DriverState}
    (h : fxFade p s = some (y, t)) : Pres s t := by
  unfold fxFade at h
  cases h1 : fxReadByte s with
  | none => simp [h1] at h
  | some r =>
    obtain ⟨b0, s1⟩ := r
    simp only [h1] at h
    cases h2 : fxReadByte s1 with
    | none => simp [h2] at h
    | some r2 =>
      obtain ⟨b1, s2⟩ := r2
      simp only [h2, Option.some.injEq, Prod.mk.injEq] at h
      obtain ⟨hy, ht⟩ := h
      subst ht
      exact pres_trans (pres_fxReadByte h1)
        (pres_trans (pres_fxReadByte h2) ⟨rfl, rfl, id⟩)

theorem pres_fxStartNote {p : Byte} {s : DriverState} {y : Bool} {t : DriverState}
    (h : fxStartNote p s = some (y, t)) : Pres s t := by
  unfold fxStartNote at h
  cases h1 : fxReadByte s with
  | none => simp [h1] at h
  | some r =>
    obtain ⟨note, s1⟩ := r
    simp only [h1, Option.some.injEq, Prod.mk.injEq] at h
    obtain ⟨hy, ht⟩ := h
    subst ht
    refine pres_trans (pres_fxReadByte h1) (pres_trans (pres_updateChannel ?_ _ _)
      (pres_trans (pres_write _ _ _) (pres_write _ _ _)))
    intro c hc
    exact ⟨hc.1, hc.2.1, calcFrequency_lt note⟩

theorem pres_fxSetVolume {p : Byte} {s : DriverState} {y : Bool} {t : DriverState}
    (h : fxSetVolume p s = some (y, t)) : Pres s t := by
  unfold fxSetVolume at h
  cases h1 : fxReadByte s with
  | none => simp [h1] at h
  | some r =>
    obtain ⟨v, s1⟩ := r
    simp only [h1, Option.some.injEq, Prod.mk.injEq] at h
    obtain ⟨hy, ht⟩ := h
    subst ht
    refine pres_trans (pres_fxReadByte h1) (pres_trans (pres_updateChannel ?_ _ _)
      (pres_setOutputLevel _ _ _))
    intro c hc
    exact ⟨min_le_right _ _, hc.2.1, hc.2.2⟩

theorem pres_fxInjectMidi {p : Byte} {s : DriverState} {y : Bool} {t : DriverState}
    (h : fxInjectMidi p s = some (y, t)) : Pres s t := by
  unfold fxInjectMidi at h
  cases h1 : fxReadByte s with
  | none => simp [h1] at h
  | some r =>
    obtain ⟨n, s1⟩ := r
    simp only [h1] at h
    cases h2 : fxReadBytes (2 * n) s1 with
    | none => simp [h2] at h
    | some r2 =>
      obtain ⟨bs, s2⟩ := r2
      simp only [h2, Option.some.injEq, Prod.mk.injEq] at h
      obtain ⟨hy, ht⟩ := h
      subst ht
      exact pres_trans (pres_fxReadByte h1)
        (pres_trans (pres_fxReadBytes h2) (pres_enqueuePairs bs s2))

theorem pres_fxPlayInstrument {p : Byte} {s : DriverState} {y : Bool} {t : DriverState}
    (h : fxPlayInstrument p s = some (y, t)) : Pres s t := by
  unfold fxPlayInstrument at h
  cases h1 : fxReadByte s with
  | none => simp [h1] at h
  | some r =>
    obtain ⟨ch, s1⟩ := r
    simp only [h1] at h
    cases h2 : (s1.fxInstrumentPtrs[p % 16]?).getD none with
    | none =>
      rw [h2] at h
      simp only [Option.some.injEq, Prod.mk.injEq] at h
      obtain ⟨hy, ht⟩ := h
      subst ht
      exact pres_fxReadByte h1
    | some q =>
      rw [h2] at h
      simp only [Option.some.injEq, Prod.mk.injEq] at h
      obtain ⟨hy, ht⟩ := h
      subst ht
      refine pres_trans (pres_fxReadByte h1) (pres_trans (pres_updateChannel ?_ _ _)
        (pres_trans (pres_write _ _ _) (pres_write _ _ _)))
      intro c hc
      exact ⟨hc.1, min_le_right _ _, hc.2.2⟩

theorem pres_fxFreezeFrequency {p : Byte} {s : DriverState} {y : Bool} {t : DriverState}
    (h : fxFreezeFrequency p s = some (y, t)) : Pres s t := by
  unfold fxFreezeFrequency at h
  exact pres_cmdFreezeFrequency h

theorem pres_fxChangeFrequency {p : Byte} {s : DriverState} {y : Bool} {t : DriverState}
    (h : fxChangeFrequency p s = some (y, t)) : Pres s t := by
  unfold fxChangeFrequency at h
  cases h1 : fxReadByte s with
  | none => simp [h1] at h
  | some r =>
    obtain ⟨b0, s1⟩ := r
    simp only [h1] at h
    cases h2 : fxReadByte s1 with
    | none => simp [h2] at h
    | some r2 =>
      obtain ⟨b1, s2⟩ := r2
      simp only [h2] at h
      cases h3 : fxReadByte s2 with
      | none => simp [h3] at h
      | some r3 =>
        obtain ⟨b2, s3⟩ := r3
        simp only [h3, Option.some.injEq, Prod.mk.injEq] at h
        obtain ⟨hy, ht⟩ := h
        subst ht
        refine pres_trans (pres_fxReadByte h1) (pres_trans (pres_fxReadByte h2)
          (pres_trans (pres_fxReadByte h3) (pres_updateChannel ?_ _ _)))
        intro c hc
        exact ⟨hc.1, hc.2.1, hc.2.2⟩

theorem pres_fxEndSubroutine {p : Byte} {s : DriverState} {y : Bool} {t : DriverState}
    (h : fxEndSubroutine p s = some (y, t)) : Pres s t := by
  unfold fxEndSubroutine at h
  cases hs : s.fxSubroutines with
  | nil =>
    rw [hs] at h
    simp only [Option.some.injEq, Prod.mk.injEq] at h
    obtain ⟨hy, ht⟩ := h
    subst ht
    exact ⟨rfl, rfl, id⟩
  | cons f rest =>
    rw [hs] at h
    simp only [Option.some.injEq, Prod.mk.injEq] at h
    obtain ⟨hy, ht⟩ := h
    subst ht
    exact ⟨rfl, rfl, id⟩

theorem pres_fxEndOfStream {p : Byte} {s : DriverState} {y : Bool} {t : DriverState}
    (h : fxEndOfStream p s = some (y, t)) : Pres s t := by
  unfold fxEndOfStream at h
  simp only [Option.some.injEq, Prod.mk.injEq] at h
  obtain ⟨hy, ht⟩ := h
  subst ht
  exact ⟨rfl, rfl, id⟩

theorem pres_fxOpcode {op p : Byte} {s : DriverState} {y : Bool} {t : DriverState}
    (h : fxOpcode op p s = some (y, t)) : Pres s t := by
  unfold fxOpcode at h
  split at h
  · exact pres_fxCallSubroutine h
  · exact pres_fxSetCountdown h
  · exact pres_fxSetInstrument h
  · exact pres_fxChannelOff h
  · exact pres_fxMidiReset h
  · exact pres_fxMidiDword h
  · exact pres_fxSetPanning h
  · exact pres_fxFade h
  · exact pres_fxStartNote h
  · exact pres_fxSetVolume h
  · exact pres_fxInjectMidi h
  · exact pres_fxPlayInstrument h
  · exact pres_fxFreezeFrequency h
  · exact pres_fxChangeFrequency h
  · exact pres_fxEndSubroutine h
  · exact pres_fxEndOfStream h

theorem musExecLoop_none {f : Nat} {s : DriverState} (h : musReadByte s = none) :
    musExecLoop (f + 1) s = ({ s with musicPlaying := false }, 0) := by
  unfold musExecLoop; rw [h]

theorem musExecLoop_opFail {f : Nat} {s s1 : DriverState} {b : Byte}
    (h1 : musReadByte s = some (b, s1))
    (h2 : musicOpcode (b / 16) (b % 16) s1 = none) :
    musExecLoop (f + 1) s = ({ s1 with musicPlaying := false }, 1) := by
  unfold musExecLoop; rw [h1]; simp only [h2]

theorem musExecLoop_yield {f : Nat} {s s1 s2 : DriverState} {b : Byte}
    (h1 : musReadByte s = some (b, s1))
    (h2 : musicOpcode (b / 16) (b % 16) s1 = some (true, s2)) :
    musExecLoop (f + 1) s = (s2, 1) := by
  unfold musExecLoop; rw [h1]; simp only [h2]; rfl

theorem musExecLoop_cont {f : Nat} {s s1 s2 : DriverState} {b : Byte}
    (h1 : musReadByte s = some (b, s1))
    (h2 : musicOpcode (b / 16) (b % 16) s1 = some (false, s2)) :
    musExecLoop (f + 1) s = ((musExecLoop f s2).1, (musExecLoop f s2).2 + 1) := by
  conv_lhs => unfold musExecLoop
  rw [h1]; simp [h2]

theorem fxExecLoop_none {f : Nat} {s : DriverState} (h : fxReadByte s = none) :
    fxExecLoop (f + 1) s = { s with fxPlaying := false } := by
  unfold fxExecLoop; rw [h]

theorem fxExecLoop_opFail {f : Nat} {s s1 : DriverState} {b : Byte}
    (h1 : fxReadByte s = some (b, s1))
    (h2 : fxOpcode (b / 16) (b % 16) s1 = none) :
    fxExecLoop (f + 1) s = { s1 with fxPlaying := false } := by
  unfold fxExecLoop; rw [h1]; simp only [h2]

theorem fxExecLoop_yield {f : Nat} {s s1 s2 : DriverState} {b : Byte}
    (h1 : fxReadByte s = some (b, s1))
    (h2 : fxOpcode (b / 16) (b % 16) s1 = some (true, s2)) :
    fxExecLoop (f + 1) s = s2 := by
  unfold fxExecLoop; rw [h1]; simp only [h2]; rfl

theorem fxExecLoop_cont {f : Nat} {s s1 s2 : DriverState} {b : Byte}
    (h1 : fxReadByte s = some (b, s1))
    (h2 : fxOpcode (b / 16) (b % 16) s1 = some (false, s2)) :
    fxExecLoop (f + 1) s = fxExecLoop f s2 := by
  conv_lhs => unfold fxExecLoop
  rw [h1]; simp [h2]

theorem pres_musExecLoop : ∀ (fuel : Nat) (s : DriverState), Pres s (musExecLoop fuel s).1 := by
  intro fuel
  induction fuel with
  | zero => intro s; exact ⟨rfl, rfl, id⟩
  | succ f ih =>
    intro s
    cases h1 : musReadByte s with
    | none => rw [musExecLoop_none h1]; exact ⟨rfl, rfl, id⟩
    | some r =>
      obtain ⟨b, s1⟩ := r
      cases h2 : musicOpcode (b / 16) (b % 16) s1 with
      | none =>
        rw [musExecLoop_opFail h1 h2]
        exact pres_trans (pres_musReadByte h1) ⟨rfl, rfl, id⟩
      | some r2 =>
        obtain ⟨yield, s2⟩ := r2
        cases yield with
        | true =>
          rw [musExecLoop_yield h1 h2]
          exact pres_trans (pres_musReadByte h1) (pres_musicOpcode h2)
        | false =>
          rw [musExecLoop_cont h1 h2]
          exact pres_trans (pres_musReadByte h1)
            (pres_trans (pres_musicOpcode h2) (ih s2))

theorem pres_musicTickC (fuel : Nat) (s : DriverState) : Pres s (musicTickC fuel s).1 := by
  unfold musicTickC
  split
  · split
    · exact pres_trans ⟨rfl, rfl, id⟩ (pres_pausePostProcess _)
    · exact pres_musExecLoop fuel s
  · exact pres_refl s

theorem pres_multiTickC (fuel : Nat) :
    ∀ (n : Nat) (s : DriverState), Pres s (multiTickC fuel n s).1 := by
  intro n
  induction n with
  | zero => intro s; exact pres_refl s
  | succ n ih => intro s; exact pres_trans (pres_musicTickC fuel s) (ih _)

theorem pres_fxExecLoop : ∀ (fuel : Nat) (s : DriverState), Pres s (fxExecLoop fuel s) := by
  intro fuel
  induction fuel with
  | zero => intro s; exact ⟨rfl, rfl, id⟩
  | succ f ih =>
    intro s
    cases h1 : fxReadByte s with
    | none => rw [fxExecLoop_none h1]; exact ⟨rfl, rfl, id⟩
    | some r =>
      obtain ⟨b, s1⟩ := r
      cases h2 : fxOpcode (b / 16) (b % 16) s1 with
      | none =>
        rw [fxExecLoop_opFail h1 h2]
        exact pres_trans (pres_fxReadByte h1) ⟨rfl, rfl, id⟩
      | some r2 =>
        obtain ⟨yield, s2⟩ := r2
        cases yield with
        | true =>
          rw [fxExecLoop_yield h1 h2]
          exact pres_trans (pres_fxReadByte h1) (pres_fxOpcode h2)
        | false =>
          rw [fxExecLoop_cont h1 h2]
          exact pres_trans (pres_fxReadByte h1)
            (pres_trans (pres_fxOpcode h2) (ih s2))

theorem pres_fxTick (fuel : Nat) (s : DriverState) : Pres s (fxTick fuel s) := by
  unfold fxTick
  split
  · split
    · exact pres_trans ⟨rfl, rfl, id⟩ (pres_pausePostProcess _)
    · exact pres_fxExecLoop fuel s
  · exact pres_refl s

theorem pres_onTimer (fuel : Nat) (s : DriverState) : Pres s (onTimer fuel s).1 := by
  show Pres s
    (fxTick fuel (musicTick fuel { (flush s).1 with frameCtr := (flush s).1.frameCtr + 1 }))
  exact pres_trans
    (⟨rfl, rfl, id⟩ :
      Pres s { (flush s).1 with frameCtr := (flush s).1.frameCtr + 1 })
    (pres_trans (pres_musicTickC fuel _) (pres_fxTick fuel _))

theorem pres_emitChannelLevels : ∀ (n : Nat) (s : DriverState), Pres s (emitChannelLevels n s)
  | 0, s => pres_refl s
  | n + 1, s => pres_trans (pres_emitChannelLevels n s) (pres_setOutputLevel _ _ _)

theorem pres_songCommand (commandId : Nat) (mv sv : Byte) (s : DriverState) :
    Pres s (songCommand commandId mv sv s).1 := by
  unfold songCommand
  split
  · exact ⟨rfl, rfl, id⟩
  · split
    · exact ⟨rfl, rfl, id⟩
    · split
      · exact pres_trans (⟨rfl, rfl, id⟩ : Pres s _) (pres_emitChannelLevels _ _)
      · split
        · exact pres_refl s
        · exact pres_refl s

theorem musicTickC_exec (fuel : Nat) (s : DriverState)
    (hplay : s.musicPlaying = true) (hcd : s.musCountdownTimer = 0) :
    musicTickC fuel s = musExecLoop fuel s := by
  unfold musicTickC; rw [hplay, hcd]; simp

theorem musicTickC_idle (fuel : Nat) (s : DriverState)
    (hplay : s.musicPlaying = true) (hcd : 0 < s.musCountdownTimer) :
    musicTickC fuel s =
      (pausePostProcess { s with musCountdownTimer := s.musCountdownTimer - 1 }, 0) := by
  unfold musicTickC; rw [hplay]; simp [hcd]

theorem multiTickC_succ (fuel n : Nat) (s : DriverState) :
    multiTickC fuel (n + 1) s =
      ((multiTickC fuel n (musicTickC fuel s).1).1,
        (musicTickC fuel s).2 + (multiTickC fuel n (musicTickC fuel s).1).2) := rfl

theorem multiTick_idle (fuel : Nat) :
    ∀ (k : Nat) (s : DriverState), s.musicPlaying = true → k ≤ s.musCountdownTimer →
      multiTickC fuel k s =
        ({ s with musCountdownTimer := s.musCountdownTimer - k,
                  channels := glideAll^[k] s.channels }, 0) := by
  intro k
  induction k with
  | zero => intro s hp hk; rfl
  | succ k ih =>
    intro s hp hk
    have hcd0 : 0 < s.musCountdownTimer := Nat.lt_of_lt_of_le (Nat.succ_pos k) hk
    have step : musicTickC fuel s =
        ({ s with musCountdownTimer := s.musCountdownTimer - 1,
                  channels := glideAll s.channels }, 0) := by
      rw [musicTickC_idle fuel s hp hcd0]; rfl
    have ih' := ih
      { s with musCountdownTimer := s.musCountdownTimer - 1, channels := glideAll s.channels }
      hp (by show k ≤ s.musCountdownTimer - 1; omega)
    rw [multiTickC_succ, step]
    simp only [ih']
    rw [show s.musCountdownTimer - 1 - k = s.musCountdownTimer - (k + 1) from by omega,
      show glideAll^[k] (glideAll s.channels) = glideAll^[k + 1] s.channels from
        (Function.iterate_succ_apply glideAll k s.channels).symm]

theorem flushLoop_spec : ∀ (q acc : List RegisterValue), flushLoop q acc = ([], acc ++ q)
  | [], acc => by simp [flushLoop]
  | r :: rest, acc => by
    show flushLoop rest (acc ++ [r]) = ([], acc ++ r :: rest)
    rw [flushLoop_spec rest (acc ++ [r])]
    simp

/-- C5: immediately after `flush` the register write queue is empty, for
every prior queue content, and the (register, value) pairs emitted to the
OPL are exactly the previously queued pairs in FIFO order. -/
theorem flush_empties_queue_fifo (s : DriverState) :
    (flush s).1.queue = [] ∧ (flush s).2 = s.queue := by
  unfold flush
  rw [flushLoop_spec s.queue []]
  exact ⟨rfl, by simp⟩

/-- C6: `songCommand` returns non-zero on `GET_STATUS` exactly when music
is playing, and returns zero on `STOP_SONG`, `RESTART_SONG` and
`SET_VOLUME`. -/
theorem songCommand_return_values (s : DriverState) (mv sv : Byte) :
    ((songCommand MusicCommand.GET_STATUS.value mv sv s).2 ≠ 0 ↔ s.musicPlaying = true) ∧
    (songCommand MusicCommand.STOP_SONG.value mv sv s).2 = 0 ∧
    (songCommand MusicCommand.RESTART_SONG.value mv sv s).2 = 0 ∧
    (songCommand MusicCommand.SET_VOLUME.value mv sv s).2 = 0 := by
  refine ⟨?_, rfl, rfl, rfl⟩
  show ((if s.musicPlaying then (1 : Int) else 0) ≠ 0 ↔ s.musicPlaying = true)
  cases s.musicPlaying <;> simp

/-- C7: `STOP_SONG` is idempotent — a second consecutive `STOP_SONG` leaves
the state of the first unchanged, and the register writes it enqueues are a
subset of those of the first call (both enqueue none). -/
theorem stop_song_idempotent (s : DriverState) :
    (songCommand MusicCommand.STOP_SONG.value 0 0
        ((songCommand MusicCommand.STOP_SONG.value 0 0 s).1)).1 =
      (songCommand MusicCommand.STOP_SONG.value 0 0 s).1 ∧
    songCommandWrites MusicCommand.STOP_SONG.value 0 0
        ((songCommand MusicCommand.STOP_SONG.value 0 0 s).1) ⊆
      songCommandWrites MusicCommand.STOP_SONG.value 0 0 s := by
  constructor
  · rfl
  · show List.drop _ _ ⊆ List.drop _ _
    simp [songCommand, songCommandWrites]

/-- C8: `isPlaying` returns exactly the `_musicPlaying` flag in every
driver state; as a `const` member it is embedded as a pure function of the
state, so it modifies nothing. -/
theorem isPlaying_reads_musicPlaying (s : DriverState) :
    isPlaying s = s.musicPlaying := rfl

/-- C9: the control-surface command enumeration consists of exactly
`STOP_SONG = 0`, `RESTART_SONG = 1`, `SET_VOLUME = 0x100` and
`GET_STATUS = 0xFFE0`. -/
theorem musicCommand_enumeration :
    MusicCommand.STOP_SONG.value = 0 ∧ MusicCommand.RESTART_SONG.value = 1 ∧
    MusicCommand.SET_VOLUME.value = 0x100 ∧ MusicCommand.GET_STATUS.value = 0xFFE0 ∧
    ∀ c : MusicCommand,
      c = MusicCommand.STOP_SONG ∨ c = MusicCommand.RESTART_SONG ∨
      c = MusicCommand.SET_VOLUME ∨ c = MusicCommand.GET_STATUS := by
  refine ⟨rfl, rfl, rfl, rfl, ?_⟩
  intro c
  cases c
  · exact Or.inl rfl
  · exact Or.inr (Or.inl rfl)
  · exact Or.inr (Or.inr (Or.inl rfl))
  · exact Or.inr (Or.inr (Or.inr rfl))

/-- C10: the `RegisterValue` constructor truncates both `int` arguments to
8 bits — the stored fields are the arguments reduced mod 256, so every
queued register write carries an 8-bit register number and an 8-bit value. -/
theorem registerValue_truncates (regNum value : Int) :
    (RegisterValue.make regNum value).regNum < 256 ∧
    (RegisterValue.make regNum value).value < 256 ∧
    ((RegisterValue.make regNum value).regNum : Int) = regNum % 256 ∧
    ((RegisterValue.make regNum value).value : Int) = value % 256 := by
  refine ⟨?_, ?_, ?_, ?_⟩
  · show (regNum % 256).toNat < 256; omega
  · show (value % 256).toNat < 256; omega
  · show (((regNum % 256).toNat : Int)) = regNum % 256; omega
  · show (((value % 256).toNat : Int)) = value % 256; omega

/-- C2: if the channel table satisfies the spec invariant
(`volume ≤ 127 ∧ scalingValue ≤ 127 ∧ frequency < 2^17` for every
channel), then it still satisfies it after a music tick, an FX tick, a full
timer callback and every control-surface operation; it also holds in the
freshly constructed driver. -/
theorem channel_invariant_preserved (s : DriverState) (h : ChannelInv s) :
    InvariantConclusion s := by
  refine ⟨fun fuel => (pres_musicTickC fuel s).2.2 h,
          fun fuel => (pres_fxTick fuel s).2.2 h,
          fun fuel => (pres_onTimer fuel s).2.2 h,
          fun B => h,
          fun effectId B => h,
          h,
          fun commandId mv sv => (pres_songCommand commandId mv sv s).2.2 h,
          by decide⟩

/-- Witness for C2, at the freshly initialised driver state. -/
theorem channel_invariant_preserved_witness :
    ChannelInv initState ∧ InvariantConclusion initState :=
  ⟨by decide, channel_invariant_preserved initState (by decide)⟩

/-- C4: executing opcode E (`musEndSubroutine`) with an empty subroutine
stack terminates the stream silently — the playing flag is cleared and the
tick yields after that single dispatch. The tick is a total function, so no
exception reaches the caller on this malformed stream. -/
theorem endSubroutine_underflow_silent (fuel : Nat) (s : DriverState)
    (hplay : s.musicPlaying = true) (hcd : s.musCountdownTimer = 0)
    (hbyte : s.musData[s.musDataPtr]? = some 0xE0)
    (hstack : s.musSubroutines = []) (hfuel : 0 < fuel) :
    musicTickC fuel s =
      ({ s with musDataPtr := s.musDataPtr + 1, musicPlaying := false }, 1) := by
  obtain ⟨f, rfl⟩ : ∃ f, fuel = f + 1 := ⟨fuel - 1, by omega⟩
  have hr : musReadByte s = some (224, { s with musDataPtr := s.musDataPtr + 1 }) := by
    unfold musReadByte; rw [hbyte]; rfl
  have hop : musicOpcode (224 / 16) (224 % 16) { s with musDataPtr := s.musDataPtr + 1 } =
      some (true, { s with musDataPtr := s.musDataPtr + 1, musicPlaying := false }) := by
    show musEndSubroutine (224 % 16) { s with musDataPtr := s.musDataPtr + 1 } = _
    unfold musEndSubroutine
    simp [hstack]
  rw [musicTickC_exec (f + 1) s hplay hcd, musExecLoop_yield hr hop]

/-- Witness for C4: the one-byte song `[0xE0]` right after `playSong`. -/
theorem endSubroutine_underflow_silent_witness :
    ((playSong [0xE0] initState).musicPlaying = true) ∧
    ((playSong [0xE0] initState).musCountdownTimer = 0) ∧
    ((playSong [0xE0] initState).musData[(playSong [0xE0] initState).musDataPtr]? =
      some 0xE0) ∧
    ((playSong [0xE0] initState).musSubroutines = []) ∧ 0 < 1 ∧
    musicTickC 1 (playSong [0xE0] initState) =
      ({ playSong [0xE0] initState with
          musDataPtr := (playSong [0xE0] initState).musDataPtr + 1,
          musicPlaying := false }, 1) :=
  ⟨rfl, rfl, rfl, rfl, Nat.one_pos,
    endSubroutine_underflow_silent 1 (playSong [0xE0] initState) rfl rfl rfl rfl Nat.one_pos⟩

/-- C3 counterexample: for the song `[0x15, 0xF0]` and one tick,
`RESTART_SONG` leaves the countdown timer at 5 while `playSong` leaves it
at 0, so the claimed exact equality of the music stream state fails. -/
theorem restart_song_not_exact :
    ¬ (songCommand MusicCommand.RESTART_SONG.value 0 0
          (multiTick 4 1 (playSong [0x15, 0xF0] initState))).1.musStream =
        (playSong [0x15, 0xF0] initState).musStream := by
  decide

/-- C3 (amended): after `playSong(B)`, any number of music ticks and a
`RESTART_SONG`, the blob, data pointer, start pointer, subroutine stack and
playing flag all equal those right after `playSong(B)`; the countdown timer
alone is not restored by `RESTART_SONG`. -/
theorem restart_song_resets_stream (s : DriverState) (B : List Byte) (N fuel : Nat) :
    ((songCommand MusicCommand.RESTART_SONG.value 0 0
        (multiTick fuel N (playSong B s))).1.musData = (playSong B s).musData) ∧
    ((songCommand MusicCommand.RESTART_SONG.value 0 0
        (multiTick fuel N (playSong B s))).1.musDataPtr = (playSong B s).musDataPtr) ∧
    ((songCommand MusicCommand.RESTART_SONG.value 0 0
        (multiTick fuel N (playSong B s))).1.musStartPtr = (playSong B s).musStartPtr) ∧
    ((songCommand MusicCommand.RESTART_SONG.value 0 0
        (multiTick fuel N (playSong B s))).1.musSubroutines =
      (playSong B s).musSubroutines) ∧
    ((songCommand MusicCommand.RESTART_SONG.value 0 0
        (multiTick fuel N (playSong B s))).1.musicPlaying = (playSong B s).musicPlaying) := by
  have hp : Pres (playSong B s) (multiTick fuel N (playSong B s)) :=
    pres_multiTickC fuel N (playSong B s)
  have hcmd : songCommand MusicCommand.RESTART_SONG.value 0 0
      (multiTick fuel N (playSong B s)) =
      ({ multiTick fuel N (playSong B s) with
          musDataPtr := (multiTick fuel N (playSong B s)).musStartPtr,
          musSubroutines := [], musicPlaying := true }, 0) := by
    simp [songCommand, MusicCommand.value]
  rw [hcmd]
  exact ⟨hp.1, hp.2.1.trans rfl, hp.2.1, rfl, rfl⟩

/-- C1: with the music stream about to execute two consecutive extended
`musSetCountdown` commands carrying countdown values `c1` and `c2`, exactly
`c1 + c2` ticks elapse with no further music opcode dispatched: every tick
with a positive countdown only decrements the timer and dispatches nothing,
and the only dispatch between the two idle stretches is the second
`musSetCountdown` itself. -/
theorem countdown_monotonicity (fuel : Nat) (s : DriverState) (c1 c2 : Nat)
    (hplay : s.musicPlaying = true) (hcd : s.musCountdownTimer = 0)
    (h0 : s.musData[s.musDataPtr]? = some 0x10)
    (h1 : s.musData[s.musDataPtr + 1]? = some c1) (hc1 : c1 < 256)
    (h2 : s.musData[s.musDataPtr + 2]? = some 0x10)
    (h3 : s.musData[s.musDataPtr + 3]? = some c2) (hc2 : c2 < 256)
    (hfuel : 0 < fuel) :
    CountdownConclusion fuel s c1 c2 := by
  obtain ⟨f, rfl⟩ : ∃ f, fuel = f + 1 := ⟨fuel - 1, by omega⟩
  have hr1 : musReadByte s = some (16, { s with musDataPtr := s.musDataPtr + 1 }) := by
    unfold musReadByte; rw [h0]; rfl
  have hb1 : musReadByte { s with musDataPtr := s.musDataPtr + 1 } =
      some (c1, { s with musDataPtr := s.musDataPtr + 2 }) := by
    unfold musReadByte
    show (s.musData[s.musDataPtr + 1]?).map _ = _
    rw [h1]
    simp [Nat.mod_eq_of_lt hc1]
  have hop1 : musicOpcode (16 / 16) (16 % 16) { s with musDataPtr := s.musDataPtr + 1 } =
      some (true, { s with musDataPtr := s.musDataPtr + 2, musCountdownTimer := c1 }) := by
    show musSetCountdown 0 { s with musDataPtr := s.musDataPtr + 1 } = _
    unfold musSetCountdown
    rw [if_neg (by simp), hb1]
  have tick1 : musicTickC (f + 1) s =
      ({ s with musDataPtr := s.musDataPtr + 2, musCountdownTimer := c1 }, 1) := by
    rw [musicTickC_exec (f + 1) s hplay hcd, musExecLoop_yield hr1 hop1]
  refine ⟨_, tick1, rfl, ?_, ?_⟩
  · intro k hk
    have hi := multiTick_idle (f + 1) k
      { s with musDataPtr := s.musDataPtr + 2, musCountdownTimer := c1 } hplay hk
    rw [hi]
    exact ⟨rfl, rfl⟩
  · have hidle := multiTick_idle (f + 1) c1
      { s with musDataPtr := s.musDataPtr + 2, musCountdownTimer := c1 } hplay (le_refl c1)
    have hmt : multiTick (f + 1) c1
        { s with musDataPtr := s.musDataPtr + 2, musCountdownTimer := c1 } =
        { s with musDataPtr := s.musDataPtr + 2, musCountdownTimer := c1 - c1,
                 channels := glideAll^[c1] s.channels } := by
      show (multiTickC (f + 1) c1 _).1 = _
      rw [hidle]
    rw [hmt, Nat.sub_self]
    have hr2 : musReadByte
        { s with musDataPtr := s.musDataPtr + 2, musCountdownTimer := 0,
                 channels := glideAll^[c1] s.channels } =
        some (16, { s with musDataPtr := s.musDataPtr + 3, musCountdownTimer := 0,
                           channels := glideAll^[c1] s.channels }) := by
      unfold musReadByte
      show (s.musData[s.musDataPtr + 2]?).map _ = _
      rw [h2]; rfl
    have hb2 : musReadByte
        { s with musDataPtr := s.musDataPtr + 3, musCountdownTimer := 0,
                 channels := glideAll^[c1] s.channels } =
        some (c2, { s with musDataPtr := s.musDataPtr + 4, musCountdownTimer := 0,
                           channels := glideAll^[c1] s.channels }) := by
      unfold musReadByte
      show (s.musData[s.musDataPtr + 3]?).map _ = _
      rw [h3]
      simp [Nat.mod_eq_of_lt hc2]
    have hop2 : musicOpcode (16 / 16) (16 % 16)
        { s with musDataPtr := s.musDataPtr + 3, musCountdownTimer := 0,
                 channels := glideAll^[c1] s.channels } =
        some (true, { s with musDataPtr := s.musDataPtr + 4, musCountdownTimer := c2,
                             channels := glideAll^[c1] s.channels }) := by
      show musSetCountdown 0 _ = _
      unfold musSetCountdown
      rw [if_neg (by simp), hb2]
    have tick2 : musicTickC (f + 1)
        { s with musDataPtr := s.musDataPtr + 2, musCountdownTimer := 0,
                 channels := glideAll^[c1] s.channels } =
        ({ s with musDataPtr := s.musDataPtr + 4, musCountdownTimer := c2,
                  channels := glideAll^[c1] s.channels }, 1) := by
      rw [musicTickC_exec (f + 1)
        { s with musDataPtr := s.musDataPtr + 2, musCountdownTimer := 0,
                 channels := glideAll^[c1] s.channels } hplay rfl,
        musExecLoop_yield hr2 hop2]
    refine ⟨_, tick2, rfl, ?_⟩
    intro k hk
    have hi := multiTick_idle (f + 1) k
      { s with musDataPtr := s.musDataPtr + 4, musCountdownTimer := c2,
               channels := glideAll^[c1] s.channels } hplay hk
    rw [hi]
    exact ⟨rfl, rfl⟩

/-- Witness for C1: the four-byte song `[0x10, 3, 0x10, 2]` — two extended
countdown commands with values 3 and 2 — played from the initial state. -/
theorem countdown_monotonicity_witness :
    ((playSong [0x10, 3, 0x10, 2] initState).musicPlaying = true) ∧
    ((playSong [0x10, 3, 0x10, 2] initState).musCountdownTimer = 0) ∧
    CountdownConclusion 1 (playSong [0x10, 3, 0x10, 2] initState) 3 2 :=
  ⟨rfl, rfl,
    countdown_monotonicity 1 (playSong [0x10, 3, 0x10, 2] initState) 3 2
      rfl rfl rfl rfl (by norm_num) rfl rfl (by norm_num) Nat.one_pos⟩

end Xeen
